import Mathlib

/-!
# KubeCure pod failure classifier

A shallow embedding of `internal/controller/pod_controller.go`: the reason
taxonomy (`mapReasonToFailureType`), the detection set (`isFailureReason`), the
classifier (`detectFailure`), the namespace filter (`isSystemNamespace`) and the
reconciliation handler (`Reconcile`), followed by the properties proved of them.

Go strings are Lean `String`s, `int32` restart counts are `Int`s (the code only
copies them), Go pointers that may be nil are `Option`s, and the `for ... range`
loop with early `return` is a structural recursion over the list of container
statuses.  `Reconcile` takes the client's `Get` as a function and returns the
log entries it emits together with its `(ctrl.Result, error)` pair.
-/

set_option autoImplicit false

namespace KubeCure

/-! ## Data model -/

/-- FailureType is `type FailureType string` in the source. -/
abbrev FailureType := String

def FailureCrashLoopBackOff : FailureType := "CrashLoopBackOff"
def FailureImagePullBackOff : FailureType := "ImagePullBackOff"
def FailureOOMKilled : FailureType := "OOMKilled"
def FailureCreateContainerConfigErr : FailureType := "CreateContainerConfigError"
def FailureRunContainerError : FailureType := "RunContainerError"
def FailureEvicted : FailureType := "Evicted"
def FailureError : FailureType := "Error"
def FailureUnknown : FailureType := "Unknown"

/-- PodFailure contains details about a detected pod failure. -/
structure PodFailure where
  PodName : String
  Namespace : String
  FailureType : FailureType
  ContainerName : String
  Message : String
  RestartCount : Int
  deriving DecidableEq, Repr

/-- The fields of `corev1.ContainerStateWaiting` read by the controller. -/
structure ContainerStateWaiting where
  Reason : String
  Message : String
  deriving DecidableEq, Repr

/-- The fields of `corev1.ContainerStateTerminated` read by the controller. -/
structure ContainerStateTerminated where
  Reason : String
  Message : String
  deriving DecidableEq, Repr

/-- The Kubernetes `corev1.ContainerState`: three pointers, each of which may be
nil.  The Go type does not enforce that at most one of them is set.  `Running`
carries no field the controller reads. -/
structure ContainerState where
  Waiting : Option ContainerStateWaiting
  Running : Option Unit
  Terminated : Option ContainerStateTerminated
  deriving DecidableEq, Repr

/-- The fields of `corev1.ContainerStatus` read by the controller. -/
structure ContainerStatus where
  Name : String
  State : ContainerState
  RestartCount : Int
  deriving DecidableEq, Repr

/-- PodPhase is `type PodPhase string` in `k8s.io/api/core/v1`. -/
abbrev PodPhase := String

/-- The constant `corev1.PodFailed` of `k8s.io/api/core/v1`. -/
def PodFailed : PodPhase := "Failed"

/-- The fields of `corev1.PodStatus` read by the controller. -/
structure PodStatus where
  Phase : PodPhase
  Reason : String
  Message : String
  ContainerStatuses : List ContainerStatus
  deriving DecidableEq, Repr

/-- The fields of `corev1.Pod` read by the controller. -/
structure Pod where
  Name : String
  Namespace : String
  Status : PodStatus
  deriving DecidableEq, Repr

/-! ## Operations -/

/-- The local slice `failureReasons` of `isFailureReason`. -/
def failureReasons : List String :=
  [ "CrashLoopBackOff",
    "ImagePullBackOff",
    "ErrImagePull",
    "CreateContainerConfigError",
    "InvalidImageName",
    "RunContainerError" ]

/-- The loop of `isFailureReason`: return true at the first equal entry. -/
def isFailureReasonLoop (reason : String) : List String → Bool
  | [] => false
  | fr :: rest => if reason = fr then true else isFailureReasonLoop reason rest

/-- isFailureReason checks if a waiting reason indicates a failure. -/
def isFailureReason (reason : String) : Bool :=
  isFailureReasonLoop reason failureReasons

/-- mapReasonToFailureType converts a Kubernetes reason to a FailureType. -/
def mapReasonToFailureType (reason : String) : FailureType :=
  if reason = "CrashLoopBackOff" then FailureCrashLoopBackOff
  else if reason = "ImagePullBackOff" ∨ reason = "ErrImagePull" ∨ reason = "InvalidImageName" then
    FailureImagePullBackOff
  else if reason = "OOMKilled" then FailureOOMKilled
  else if reason = "CreateContainerConfigError" then FailureCreateContainerConfigErr
  else if reason = "RunContainerError" then FailureRunContainerError
  else if reason = "Evicted" then FailureEvicted
  else if reason = "Error" then FailureError
  else FailureUnknown

/-- The first `if` of the loop body of `detectFailure`: the waiting state. -/
def checkWaiting (pod : Pod) (cs : ContainerStatus) : Option PodFailure :=
  match cs.State.Waiting with
  | some w =>
    if isFailureReason w.Reason then
      some { PodName := pod.Name
             Namespace := pod.Namespace
             FailureType := mapReasonToFailureType w.Reason
             ContainerName := cs.Name
             Message := w.Message
             RestartCount := cs.RestartCount }
    else none
  | none => none

/-- The second `if` of the loop body of `detectFailure`: the terminated state. -/
def checkTerminated (pod : Pod) (cs : ContainerStatus) : Option PodFailure :=
  match cs.State.Terminated with
  | some t =>
    if t.Reason = "OOMKilled" ∨ t.Reason = "Error" then
      some { PodName := pod.Name
             Namespace := pod.Namespace
             FailureType := mapReasonToFailureType t.Reason
             ContainerName := cs.Name
             Message := t.Message
             RestartCount := cs.RestartCount }
    else none
  | none => none

/-- The `for _, cs := range pod.Status.ContainerStatuses` loop of
`detectFailure`: `some f` when the loop returns `f`, `none` when it runs to the
end of the slice. -/
def scanContainerStatuses (pod : Pod) : List ContainerStatus → Option PodFailure
  | [] => none
  | cs :: rest =>
    match checkWaiting pod cs with
    | some f => some f
    | none =>
      match checkTerminated pod cs with
      | some f => some f
      | none => scanContainerStatuses pod rest

/-- detectFailure checks a Pod for known failure conditions; `none` is the nil
result. -/
def detectFailure (pod : Pod) : Option PodFailure :=
  match scanContainerStatuses pod pod.Status.ContainerStatuses with
  | some f => some f
  | none =>
    if pod.Status.Reason = "Evicted" then
      some { PodName := pod.Name
             Namespace := pod.Namespace
             FailureType := FailureEvicted
             ContainerName := ""
             Message := pod.Status.Message
             RestartCount := 0 }
    else if pod.Status.Phase = PodFailed then
      some { PodName := pod.Name
             Namespace := pod.Namespace
             FailureType := FailureUnknown
             ContainerName := ""
             Message := pod.Status.Message
             RestartCount := 0 }
    else none

/-- The local slice `systemNamespaces` of `isSystemNamespace`. -/
def systemNamespaces : List String :=
  [ "kube-system",
    "kube-public",
    "kube-node-lease",
    "local-path-storage" ]

/-- The loop of `isSystemNamespace`: return true at the first equal entry. -/
def isSystemNamespaceLoop (ns : String) : List String → Bool
  | [] => false
  | sns :: rest => if ns = sns then true else isSystemNamespaceLoop ns rest

/-- isSystemNamespace returns true for Kubernetes system namespaces. -/
def isSystemNamespace (ns : String) : Bool :=
  isSystemNamespaceLoop ns systemNamespaces

/-- The `types.NamespacedName` of a reconcile request. -/
structure NamespacedName where
  Namespace : String
  Name : String
  deriving DecidableEq, Repr

/-- The `ctrl.Request` handed to `Reconcile`. -/
structure Request where
  NamespacedName : NamespacedName
  deriving DecidableEq, Repr

/-- The `ctrl.Result` of controller-runtime; `ctrl.Result{}` is its zero value. -/
structure Result where
  Requeue : Bool
  RequeueAfter : Nat
  deriving DecidableEq, Repr

/-- The zero value `ctrl.Result{}`: no requeue requested. -/
def Result.zero : Result := { Requeue := false, RequeueAfter := 0 }

/-- An error returned by the client's `Get`: the API server's not-found error,
or any other error. -/
inductive ClientError where
  | notFound (msg : String)
  | other (msg : String)
  deriving DecidableEq, Repr

/-- The function `client.IgnoreNotFound` of controller-runtime: nil on a
not-found error, every other value unchanged. -/
def IgnoreNotFound : Option ClientError → Option ClientError
  | some (ClientError.notFound _) => none
  | err => err

/-- The client's `Get` as the reconciler sees it: for a namespaced name, the
current Pod or an error. -/
abbrev Client := NamespacedName → Except ClientError Pod

/-- A value logged next to a key: a string or an integer. -/
inductive LogValue where
  | str (s : String)
  | int (i : Int)
  deriving DecidableEq, Repr

/-- One call of `log.Info`: the message and its key-value pairs in order. -/
structure LogEntry where
  Msg : String
  KeysAndValues : List (String × LogValue)
  deriving DecidableEq, Repr

/-- What one call of `Reconcile` does: the log entries it emits and the
`(ctrl.Result, error)` pair it returns. -/
structure ReconcileOutcome where
  Logs : List LogEntry
  Result : Result
  Err : Option ClientError
  deriving DecidableEq, Repr

/-- Reconcile is called when a Pod changes. It checks for failures and logs
them. -/
def Reconcile (r : Client) (req : Request) : ReconcileOutcome :=
  match r req.NamespacedName with
  | Except.error err =>
    { Logs := [], Result := Result.zero, Err := IgnoreNotFound (some err) }
  | Except.ok pod =>
    if isSystemNamespace pod.Namespace then
      { Logs := [], Result := Result.zero, Err := none }
    else
      match detectFailure pod with
      | none => { Logs := [], Result := Result.zero, Err := none }
      | some failure =>
        { Logs := [ { Msg := "🚨 Pod failure detected"
                      KeysAndValues :=
                        [ ("pod", LogValue.str failure.PodName),
                          ("namespace", LogValue.str failure.Namespace),
                          ("failureType", LogValue.str failure.FailureType),
                          ("container", LogValue.str failure.ContainerName),
                          ("message", LogValue.str failure.Message),
                          ("restartCount", LogValue.int failure.RestartCount) ] } ]
          Result := Result.zero
          Err := none }

/-! ## Vocabulary of the properties -/

/-- The known failure reason set, as the specification lists it. -/
def knownFailureReasons : List String :=
  ["CrashLoopBackOff", "ImagePullBackOff", "ErrImagePull",
   "CreateContainerConfigError", "InvalidImageName", "RunContainerError"]

/-- A record is Waiting with a reason of the known failure reason set. -/
def waitingFails (cs : ContainerStatus) : Prop :=
  ∃ w, cs.State.Waiting = some w ∧ w.Reason ∈ knownFailureReasons

/-- A record is Terminated with reason exactly OOMKilled or exactly Error. -/
def terminatedFails (cs : ContainerStatus) : Prop :=
  ∃ t, cs.State.Terminated = some t ∧ (t.Reason = "OOMKilled" ∨ t.Reason = "Error")

/-- A failing record: Waiting with a known failure reason, or Terminated with
reason OOMKilled or Error. -/
def failingRecord (cs : ContainerStatus) : Prop :=
  waitingFails cs ∨ terminatedFails cs

instance (cs : ContainerStatus) : Decidable (waitingFails cs) :=
  match h : cs.State.Waiting with
  | none => isFalse (fun ⟨_, h2, _⟩ => by rw [h] at h2; cases h2)
  | some w =>
    if hw : w.Reason ∈ knownFailureReasons then isTrue ⟨w, h, hw⟩
    else isFalse (fun ⟨_, h2, h3⟩ => by rw [h] at h2; cases h2; exact hw h3)

instance (cs : ContainerStatus) : Decidable (terminatedFails cs) :=
  match h : cs.State.Terminated with
  | none => isFalse (fun ⟨_, h2, _⟩ => by rw [h] at h2; cases h2)
  | some t =>
    if ht : t.Reason = "OOMKilled" ∨ t.Reason = "Error" then isTrue ⟨t, h, ht⟩
    else isFalse (fun ⟨_, h2, h3⟩ => by rw [h] at h2; cases h2; exact ht h3)

instance (cs : ContainerStatus) : Decidable (failingRecord cs) :=
  inferInstanceAs (Decidable (waitingFails cs ∨ terminatedFails cs))

/-- A record Waiting with reason CrashLoopBackOff. -/
def crashLoopWaiting (cs : ContainerStatus) : Prop :=
  ∃ w, cs.State.Waiting = some w ∧ w.Reason = "CrashLoopBackOff"

instance (cs : ContainerStatus) : Decidable (crashLoopWaiting cs) :=
  match h : cs.State.Waiting with
  | none => isFalse (fun ⟨_, h2, _⟩ => by rw [h] at h2; cases h2)
  | some w =>
    if hw : w.Reason = "CrashLoopBackOff" then isTrue ⟨w, h, hw⟩
    else isFalse (fun ⟨_, h2, h3⟩ => by rw [h] at h2; cases h2; exact hw h3)

/-! ## Concrete observations -/

/-- A running container. -/
def csSidecar : ContainerStatus :=
  { Name := "sidecar"
    State := { Waiting := none, Running := some (), Terminated := none }
    RestartCount := 0 }

/-- A container that is starting up: Waiting with a reason outside the set. -/
def csStarting : ContainerStatus :=
  { Name := "init"
    State := { Waiting := some { Reason := "ContainerCreating", Message := "" }
               Running := none, Terminated := none }
    RestartCount := 0 }

/-- A container that ended normally. -/
def csCompleted : ContainerStatus :=
  { Name := "job"
    State := { Waiting := none, Running := none
               Terminated := some { Reason := "Completed", Message := "" } }
    RestartCount := 0 }

/-- A container in Waiting state with reason CrashLoopBackOff. -/
def csCrashLoop : ContainerStatus :=
  { Name := "app"
    State := { Waiting := some { Reason := "CrashLoopBackOff"
                                 Message := "back-off 5m0s restarting failed container" }
               Running := none, Terminated := none }
    RestartCount := 7 }

/-- A container in Waiting state with reason ErrImagePull. -/
def csErrImagePull : ContainerStatus :=
  { Name := "web"
    State := { Waiting := some { Reason := "ErrImagePull", Message := "manifest unknown" }
               Running := none, Terminated := none }
    RestartCount := 0 }

/-- A container in Terminated state with reason OOMKilled. -/
def csOOM : ContainerStatus :=
  { Name := "worker"
    State := { Waiting := none, Running := none
               Terminated := some { Reason := "OOMKilled", Message := "memory limit exceeded" } }
    RestartCount := 2 }

/-- A pod with the given container statuses and pod-level reason and phase. -/
def mkPod (statuses : List ContainerStatus) (reason : String) (phase : PodPhase) : Pod :=
  { Name := "shop-7d9c"
    Namespace := "default"
    Status := { Phase := phase, Reason := reason, Message := "pod-level message"
                ContainerStatuses := statuses } }

/-- A healthy pod: running, starting and completed containers, phase Running. -/
def healthyPod : Pod := mkPod [csSidecar, csStarting, csCompleted] "" "Running"

/-- A pod whose only failing container is in CrashLoopBackOff. -/
def crashLoopPod : Pod := mkPod [csSidecar, csCrashLoop, csCompleted] "" "Running"

/-- A pod with an OOMKilled container reported before a CrashLoopBackOff one. -/
def oomThenCrashPod : Pod := mkPod [csOOM, csCrashLoop] "" "Running"

/-- A pod with a failing Waiting container, a later failing Terminated one, and
pod-level Evicted reason and Failed phase. -/
def mixedPod : Pod := mkPod [csSidecar, csErrImagePull, csOOM] "Evicted" "Failed"

/-- The failure record built from `csCrashLoop` in a `mkPod` pod. -/
def crashLoopFailure : PodFailure :=
  { PodName := "shop-7d9c"
    Namespace := "default"
    FailureType := "CrashLoopBackOff"
    ContainerName := "app"
    Message := "back-off 5m0s restarting failed container"
    RestartCount := 7 }

/-- The failure record built from `csOOM` in a `mkPod` pod. -/
def oomFailure : PodFailure :=
  { PodName := "shop-7d9c"
    Namespace := "default"
    FailureType := "OOMKilled"
    ContainerName := "worker"
    Message := "memory limit exceeded"
    RestartCount := 2 }

/-- The failure record built from `csErrImagePull` in a `mkPod` pod. -/
def errImagePullFailure : PodFailure :=
  { PodName := "shop-7d9c"
    Namespace := "default"
    FailureType := "ImagePullBackOff"
    ContainerName := "web"
    Message := "manifest unknown"
    RestartCount := 0 }

/-- A record with both pointers set: Waiting with reason CrashLoopBackOff and
Terminated with reason OOMKilled. -/
def csWaitingAndOOM : ContainerStatus :=
  { Name := "db"
    State := { Waiting := some { Reason := "CrashLoopBackOff", Message := "back-off" }
               Running := none
               Terminated := some { Reason := "OOMKilled", Message := "oom" } }
    RestartCount := 3 }

/-- A pod whose first failing record has both Waiting and Terminated set. -/
def bothSetPod : Pod := mkPod [csSidecar, csWaitingAndOOM] "" "Running"

/-- A pod whose first failing record is Terminated with reason OOMKilled. -/
def oomFirstPod : Pod := mkPod [csSidecar, csCompleted, csOOM, csCrashLoop] "" "Running"

/-- An evicted pod in phase Failed with no failing container status. -/
def evictedPod : Pod := mkPod [csSidecar, csCompleted] "Evicted" "Failed"

/-- A pod in phase Failed, not evicted, with no failing container status. -/
def failedPod : Pod := mkPod [csStarting, csCompleted] "DeadlineExceeded" "Failed"

/-- The failure record `detectFailure` builds for `bothSetPod`. -/
def bothSetFailure : PodFailure :=
  { PodName := "shop-7d9c"
    Namespace := "default"
    FailureType := "CrashLoopBackOff"
    ContainerName := "db"
    Message := "back-off"
    RestartCount := 3 }

/-- The reason strings the Reason Taxonomy's table has an entry for. -/
def taxonomyReasons : List String :=
  ["CrashLoopBackOff", "ImagePullBackOff", "ErrImagePull", "InvalidImageName",
   "OOMKilled", "CreateContainerConfigError", "RunContainerError", "Evicted", "Error"]

/-- A container Waiting with a reason the taxonomy has no entry for. -/
def csFutureReason : ContainerStatus :=
  { Name := "api"
    State := { Waiting := some { Reason := "SomeFutureReason", Message := "not yet known" }
               Running := none, Terminated := none }
    RestartCount := 4 }

/-- A container Terminated with a reason the taxonomy has no entry for. -/
def csCannotRun : ContainerStatus :=
  { Name := "batch"
    State := { Waiting := none, Running := none
               Terminated := some { Reason := "ContainerCannotRun", Message := "exec failed" } }
    RestartCount := 1 }

/-- A running pod whose only unusual record is `csFutureReason`. -/
def futureReasonPod : Pod := mkPod [csSidecar, csFutureReason] "" "Running"

/-- A running pod whose only unusual record is `csCannotRun`. -/
def cannotRunPod : Pod := mkPod [csCannotRun, csSidecar] "" "Running"

/-- The pod-level Unknown failure of `failedPod`. -/
def failedPodFailure : PodFailure :=
  { PodName := "shop-7d9c"
    Namespace := "default"
    FailureType := "Unknown"
    ContainerName := ""
    Message := "pod-level message"
    RestartCount := 0 }

/-- The pod `crashLoopPod` placed in the namespace kube-system. -/
def systemCrashPod : Pod := { crashLoopPod with Namespace := "kube-system" }

/-- The failure record `detectFailure` builds for `systemCrashPod`. -/
def systemCrashFailure : PodFailure := { crashLoopFailure with Namespace := "kube-system" }

/-- A reconcile request for the pod of `mkPod`. -/
def shopRequest : Request :=
  { NamespacedName := { Namespace := "default", Name := "shop-7d9c" } }

/-- A client whose `Get` finds the given pod under every name. -/
def clientWith (pod : Pod) : Client := fun _ => Except.ok pod

/-- A client whose `Get` reports that the pod no longer exists. -/
def clientNotFound : Client := fun _ => Except.error (ClientError.notFound "pod not found")

/-- A client whose `Get` fails with a connectivity error. -/
def clientUnavailable : Client :=
  fun _ => Except.error (ClientError.other "connection refused")

/-- The outcome of a reconciliation that logs nothing and returns
`ctrl.Result{}, nil`. -/
def silentSuccess : ReconcileOutcome :=
  { Logs := [], Result := Result.zero, Err := none }

/-- The pod-level Evicted failure of `evictedPod`. -/
def evictedPodFailure : PodFailure :=
  { PodName := "shop-7d9c"
    Namespace := "default"
    FailureType := "Evicted"
    ContainerName := ""
    Message := "pod-level message"
    RestartCount := 0 }

/-- A record with both pointers set: Waiting with reason Error, which is not a
known failure reason, and Terminated with reason OOMKilled. -/
def csWaitingErrorAndOOM : ContainerStatus :=
  { Name := "cache"
    State := { Waiting := some { Reason := "Error", Message := "exit status 1" }
               Running := none
               Terminated := some { Reason := "OOMKilled", Message := "oom" } }
    RestartCount := 5 }

/-- A pod whose only failing record is `csWaitingErrorAndOOM`. -/
def waitingErrorPod : Pod := mkPod [csSidecar, csWaitingErrorAndOOM] "" "Running"

/-- The failure record `detectFailure` builds for `waitingErrorPod`, from the
Terminated state of `csWaitingErrorAndOOM`. -/
def waitingErrorFailure : PodFailure :=
  { PodName := "shop-7d9c"
    Namespace := "default"
    FailureType := "OOMKilled"
    ContainerName := "cache"
    Message := "oom"
    RestartCount := 5 }

/-- A container in Terminated state with the reason "oomkilled", a case variant
of OOMKilled. -/
def csTerminatedLowercase : ContainerStatus :=
  { Name := "resize"
    State := { Waiting := none, Running := none
               Terminated := some { Reason := "oomkilled", Message := "" } }
    RestartCount := 1 }

/-- A container in Terminated state with the reason "CrashLoopBackOff", a reason
of the Waiting set. -/
def csTerminatedCrashLoop : ContainerStatus :=
  { Name := "migrate"
    State := { Waiting := none, Running := none
               Terminated := some { Reason := "CrashLoopBackOff", Message := "" } }
    RestartCount := 9 }

theorem isFailureReason_iff (r : String) :
    isFailureReason r = true ↔ r ∈ knownFailureReasons := by
  simp [isFailureReason, isFailureReasonLoop, failureReasons, knownFailureReasons]

theorem checkWaiting_of_fails (pod : Pod) (cs : ContainerStatus) (w : ContainerStateWaiting)
    (hw : cs.State.Waiting = some w) (hr : w.Reason ∈ knownFailureReasons) :
    checkWaiting pod cs =
      some { PodName := pod.Name, Namespace := pod.Namespace,
             FailureType := mapReasonToFailureType w.Reason,
             ContainerName := cs.Name, Message := w.Message,
             RestartCount := cs.RestartCount } := by
  have h := (isFailureReason_iff w.Reason).mpr hr
  simp [checkWaiting, hw, h]

theorem checkWaiting_eq_none_iff (pod : Pod) (cs : ContainerStatus) :
    checkWaiting pod cs = none ↔ ¬ waitingFails cs := by
  unfold checkWaiting waitingFails
  cases hw : cs.State.Waiting with
  | none => simp
  | some w =>
    by_cases hr : isFailureReason w.Reason = true
    · simp [hr, (isFailureReason_iff w.Reason).mp hr]
    · have hn : w.Reason ∉ knownFailureReasons := fun h => hr ((isFailureReason_iff _).mpr h)
      simp [hr, hn]

theorem checkTerminated_of_fails (pod : Pod) (cs : ContainerStatus)
    (t : ContainerStateTerminated) (ht : cs.State.Terminated = some t)
    (hr : t.Reason = "OOMKilled" ∨ t.Reason = "Error") :
    checkTerminated pod cs =
      some { PodName := pod.Name, Namespace := pod.Namespace,
             FailureType := mapReasonToFailureType t.Reason,
             ContainerName := cs.Name, Message := t.Message,
             RestartCount := cs.RestartCount } := by
  simp [checkTerminated, ht, hr]

theorem checkTerminated_eq_none_iff (pod : Pod) (cs : ContainerStatus) :
    checkTerminated pod cs = none ↔ ¬ terminatedFails cs := by
  unfold checkTerminated terminatedFails
  cases ht : cs.State.Terminated with
  | none => simp
  | some t =>
    by_cases hr : t.Reason = "OOMKilled" ∨ t.Reason = "Error"
    · simp [hr]
    · simp [hr]

theorem scan_cons_of_not_failing (pod : Pod) (cs : ContainerStatus)
    (rest : List ContainerStatus) (h : ¬ failingRecord cs) :
    scanContainerStatuses pod (cs :: rest) = scanContainerStatuses pod rest := by
  have h1 : checkWaiting pod cs = none :=
    (checkWaiting_eq_none_iff pod cs).mpr (fun hw => h (Or.inl hw))
  have h2 : checkTerminated pod cs = none :=
    (checkTerminated_eq_none_iff pod cs).mpr (fun ht => h (Or.inr ht))
  simp [scanContainerStatuses, h1, h2]

theorem scan_append_of_not_failing (pod : Pod) (pre rest : List ContainerStatus)
    (h : ∀ c ∈ pre, ¬ failingRecord c) :
    scanContainerStatuses pod (pre ++ rest) = scanContainerStatuses pod rest := by
  induction pre with
  | nil => rfl
  | cons c pre ih =>
    have hc : ¬ failingRecord c := h c (List.mem_cons_self c pre)
    have hpre : ∀ d ∈ pre, ¬ failingRecord d := fun d hd => h d (List.mem_cons_of_mem c hd)
    rw [List.cons_append, scan_cons_of_not_failing pod c (pre ++ rest) hc]
    exact ih hpre

theorem scan_eq_none_iff (pod : Pod) (l : List ContainerStatus) :
    scanContainerStatuses pod l = none ↔ ∀ c ∈ l, ¬ failingRecord c := by
  induction l with
  | nil => simp [scanContainerStatuses]
  | cons c l ih =>
    by_cases hc : failingRecord c
    · constructor
      · intro hnone
        exfalso
        rcases hc with hw | ht
        · have : checkWaiting pod c ≠ none := fun e => (checkWaiting_eq_none_iff pod c).mp e hw
          cases hcw : checkWaiting pod c with
          | none => exact this hcw
          | some f => simp [scanContainerStatuses, hcw] at hnone
        · have : checkTerminated pod c ≠ none :=
            fun e => (checkTerminated_eq_none_iff pod c).mp e ht
          cases hcw : checkWaiting pod c with
          | some f => simp [scanContainerStatuses, hcw] at hnone
          | none =>
            cases hct : checkTerminated pod c with
            | none => exact this hct
            | some f => simp [scanContainerStatuses, hcw, hct] at hnone
      · intro hall
        exact absurd hc (hall c (List.mem_cons_self c l))
    · rw [scan_cons_of_not_failing pod c l hc, ih]
      constructor
      · intro hall d hd
        rcases List.mem_cons.mp hd with rfl | hd
        · exact hc
        · exact hall d hd
      · intro hall d hd
        exact hall d (List.mem_cons_of_mem c hd)

theorem detectFailure_of_scan_none (pod : Pod)
    (h : scanContainerStatuses pod pod.Status.ContainerStatuses = none) :
    detectFailure pod =
      if pod.Status.Reason = "Evicted" then
        some { PodName := pod.Name, Namespace := pod.Namespace, FailureType := FailureEvicted,
               ContainerName := "", Message := pod.Status.Message, RestartCount := 0 }
      else if pod.Status.Phase = PodFailed then
        some { PodName := pod.Name, Namespace := pod.Namespace, FailureType := FailureUnknown,
               ContainerName := "", Message := pod.Status.Message, RestartCount := 0 }
      else none := by
  simp [detectFailure, h]

theorem detectFailure_of_scan_some (pod : Pod) (f : PodFailure)
    (h : scanContainerStatuses pod pod.Status.ContainerStatuses = some f) :
    detectFailure pod = some f := by
  simp [detectFailure, h]

theorem map_known_ne_unknown (r : String) (h : r ∈ knownFailureReasons) :
    mapReasonToFailureType r ≠ FailureUnknown := by
  have hall : ∀ x ∈ knownFailureReasons, mapReasonToFailureType x ≠ FailureUnknown := by decide
  exact hall r h

theorem map_of_not_in_table (r : String) (h : r ∉ taxonomyReasons) :
    mapReasonToFailureType r = FailureUnknown := by
  simp only [taxonomyReasons, List.mem_cons, List.mem_singleton, List.not_mem_nil, or_false,
    not_or] at h
  obtain ⟨h1, h2, h3, h4, h5, h6, h7, h8, h9⟩ := h
  simp [mapReasonToFailureType, h1, h2, h3, h4, h5, h6, h7, h8, h9]

theorem known_subset_table (r : String) (h : r ∈ knownFailureReasons) :
    r ∈ taxonomyReasons := by
  have hall : ∀ x ∈ knownFailureReasons, x ∈ taxonomyReasons := by decide
  exact hall r h

theorem checkWaiting_type_ne_unknown (pod : Pod) (cs : ContainerStatus) (f : PodFailure)
    (h : checkWaiting pod cs = some f) : f.FailureType ≠ FailureUnknown := by
  unfold checkWaiting at h
  cases hw : cs.State.Waiting with
  | none => simp [hw] at h
  | some w =>
    by_cases hr : isFailureReason w.Reason = true
    · simp [hw, hr] at h
      rw [← h]
      exact map_known_ne_unknown w.Reason ((isFailureReason_iff _).mp hr)
    · simp [hw, hr] at h

theorem checkTerminated_type_ne_unknown (pod : Pod) (cs : ContainerStatus) (f : PodFailure)
    (h : checkTerminated pod cs = some f) : f.FailureType ≠ FailureUnknown := by
  unfold checkTerminated at h
  cases ht : cs.State.Terminated with
  | none => simp [ht] at h
  | some t =>
    by_cases hr : t.Reason = "OOMKilled" ∨ t.Reason = "Error"
    · have hne : mapReasonToFailureType t.Reason ≠ FailureUnknown := by
        rcases hr with hr | hr <;> rw [hr] <;> decide
      simp [ht, hr] at h
      rw [← h]
      exact hne
    · simp [ht, hr] at h

theorem scan_type_ne_unknown (pod : Pod) (l : List ContainerStatus) (f : PodFailure)
    (h : scanContainerStatuses pod l = some f) : f.FailureType ≠ FailureUnknown := by
  induction l with
  | nil => simp [scanContainerStatuses] at h
  | cons c l ih =>
    cases hcw : checkWaiting pod c with
    | some g =>
      simp [scanContainerStatuses, hcw] at h
      rw [← h]
      exact checkWaiting_type_ne_unknown pod c g hcw
    | none =>
      cases hct : checkTerminated pod c with
      | some g =>
        simp [scanContainerStatuses, hcw, hct] at h
        rw [← h]
        exact checkTerminated_type_ne_unknown pod c g hct
      | none =>
        simp [scanContainerStatuses, hcw, hct] at h
        exact ih h

/-! ## The classifier on healthy pods -/

/-- C1: a pod observation in which no container status is Waiting with a
reason of the known failure reason set, none is Terminated with reason
OOMKilled or Error, whose pod-level reason is not "Evicted" and whose phase is
not Failed, yields no failure. -/
theorem detectFailure_healthy_none (pod : Pod)
    (hW : ∀ cs ∈ pod.Status.ContainerStatuses, ∀ w, cs.State.Waiting = some w →
      w.Reason ∉ ["CrashLoopBackOff", "ImagePullBackOff", "ErrImagePull",
        "CreateContainerConfigError", "InvalidImageName", "RunContainerError"])
    (hT : ∀ cs ∈ pod.Status.ContainerStatuses, ∀ t, cs.State.Terminated = some t →
      t.Reason ≠ "OOMKilled" ∧ t.Reason ≠ "Error")
    (hE : pod.Status.Reason ≠ "Evicted")
    (hP : pod.Status.Phase ≠ PodFailed) :
    detectFailure pod = none := by
  have hscan : scanContainerStatuses pod pod.Status.ContainerStatuses = none := by
    rw [scan_eq_none_iff]
    intro c hc hfail
    rcases hfail with ⟨w, hw, hr⟩ | ⟨t, ht, hr⟩
    · exact hW c hc w hw hr
    · have := hT c hc t ht
      rcases hr with hr | hr
      · exact this.1 hr
      · exact this.2 hr
  rw [detectFailure_of_scan_none pod hscan, if_neg hE, if_neg hP]

/-- Witness of C1 at `healthyPod`. -/
theorem detectFailure_healthy_none_witness : detectFailure healthyPod = none :=
  detectFailure_healthy_none healthyPod (by decide) (by decide) (by decide) (by decide)

/-- C2: a PodFailure is never constructed for a healthy pod: whenever
`detectFailure` returns a PodFailure, some container status is Waiting with a
known failure reason, or some container status is Terminated with reason
exactly OOMKilled or Error, or the pod-level reason is exactly "Evicted", or
the phase is Failed. -/
theorem detectFailure_some_has_cause (pod : Pod) (f : PodFailure)
    (h : detectFailure pod = some f) :
    (∃ cs ∈ pod.Status.ContainerStatuses, ∃ w, cs.State.Waiting = some w ∧
        w.Reason ∈ ["CrashLoopBackOff", "ImagePullBackOff", "ErrImagePull",
          "CreateContainerConfigError", "InvalidImageName", "RunContainerError"]) ∨
    (∃ cs ∈ pod.Status.ContainerStatuses, ∃ t, cs.State.Terminated = some t ∧
        (t.Reason = "OOMKilled" ∨ t.Reason = "Error")) ∨
    pod.Status.Reason = "Evicted" ∨
    pod.Status.Phase = PodFailed := by
  by_cases hscan : scanContainerStatuses pod pod.Status.ContainerStatuses = none
  · rw [detectFailure_of_scan_none pod hscan] at h
    by_cases hE : pod.Status.Reason = "Evicted"
    · exact Or.inr (Or.inr (Or.inl hE))
    · by_cases hP : pod.Status.Phase = PodFailed
      · exact Or.inr (Or.inr (Or.inr hP))
      · rw [if_neg hE, if_neg hP] at h
        cases h
  · rw [scan_eq_none_iff] at hscan
    push_neg at hscan
    obtain ⟨c, hc, hfail⟩ := hscan
    rcases hfail with ⟨w, hw, hr⟩ | ⟨t, ht, hr⟩
    · exact Or.inl ⟨c, hc, w, hw, hr⟩
    · exact Or.inr (Or.inl ⟨c, hc, t, ht, hr⟩)

/-- Witness of C2 at `crashLoopPod`, whose result comes from `csCrashLoop`. -/
theorem detectFailure_some_has_cause_witness :
    detectFailure crashLoopPod = some crashLoopFailure ∧
    ((∃ cs ∈ crashLoopPod.Status.ContainerStatuses, ∃ w, cs.State.Waiting = some w ∧
        w.Reason ∈ ["CrashLoopBackOff", "ImagePullBackOff", "ErrImagePull",
          "CreateContainerConfigError", "InvalidImageName", "RunContainerError"]) ∨
    (∃ cs ∈ crashLoopPod.Status.ContainerStatuses, ∃ t, cs.State.Terminated = some t ∧
        (t.Reason = "OOMKilled" ∨ t.Reason = "Error")) ∨
    crashLoopPod.Status.Reason = "Evicted" ∨
    crashLoopPod.Status.Phase = PodFailed) :=
  ⟨by decide, detectFailure_some_has_cause crashLoopPod crashLoopFailure (by decide)⟩

/-! ## Container-level results -/

/-- C3, as stated, fails at `oomThenCrashPod`: its statuses contain exactly one
record Waiting with reason CrashLoopBackOff (`csCrashLoop`, after `csOOM`), yet
the result is the OOMKilled failure of `csOOM`, not the CrashLoopBackOff
failure of `csCrashLoop`. -/
theorem crashLoop_exactly_one_counterexample :
    oomThenCrashPod.Status.ContainerStatuses = [csOOM] ++ csCrashLoop :: [] ∧
    crashLoopWaiting csCrashLoop ∧
    (∀ c ∈ [csOOM] ++ [], ¬ crashLoopWaiting c) ∧
    detectFailure oomThenCrashPod = some oomFailure ∧
    detectFailure oomThenCrashPod ≠ some crashLoopFailure := by
  decide

/-- C3, amended: when the container statuses contain exactly one record `cs`
Waiting with reason CrashLoopBackOff and no record before `cs` is a failing
record, the result is the PodFailure with FailureType CrashLoopBackOff whose
container name, message and restart count are those of `cs`. -/
theorem detectFailure_crashLoop_exactly_one (pod : Pod) (pre post : List ContainerStatus)
    (cs : ContainerStatus) (w : ContainerStateWaiting)
    (hl : pod.Status.ContainerStatuses = pre ++ cs :: post)
    (hw : cs.State.Waiting = some w) (hr : w.Reason = "CrashLoopBackOff")
    (_hone : ∀ c ∈ pre ++ post, ¬ crashLoopWaiting c)
    (hpre : ∀ c ∈ pre, ¬ failingRecord c) :
    detectFailure pod =
      some { PodName := pod.Name, Namespace := pod.Namespace,
             FailureType := FailureCrashLoopBackOff,
             ContainerName := cs.Name, Message := w.Message,
             RestartCount := cs.RestartCount } := by
  have hmem : w.Reason ∈ knownFailureReasons := by rw [hr]; decide
  have hcw := checkWaiting_of_fails pod cs w hw hmem
  have hmap : mapReasonToFailureType w.Reason = FailureCrashLoopBackOff := by rw [hr]; rfl
  rw [hmap] at hcw
  apply detectFailure_of_scan_some
  rw [hl, scan_append_of_not_failing pod pre (cs :: post) hpre]
  simp [scanContainerStatuses, hcw]

/-- Witness of the amended C3 at `crashLoopPod`. -/
theorem detectFailure_crashLoop_exactly_one_witness :
    detectFailure crashLoopPod = some crashLoopFailure :=
  detectFailure_crashLoop_exactly_one crashLoopPod [csSidecar] [csCompleted] csCrashLoop
    { Reason := "CrashLoopBackOff", Message := "back-off 5m0s restarting failed container" }
    rfl rfl rfl (by decide) (by decide)

/-- C4: first match wins and container-level signals take priority: when the
container statuses are `pre ++ [cs] ++ post`, no record of `pre` is failing and
`cs` is Waiting with a known failure reason, the result is built from `cs`
(name, restart count, waiting message, type from the taxonomy), whatever `post`,
the pod-level reason and the phase are. -/
theorem detectFailure_first_waiting_wins (pod : Pod) (pre post : List ContainerStatus)
    (cs : ContainerStatus) (w : ContainerStateWaiting)
    (hl : pod.Status.ContainerStatuses = pre ++ [cs] ++ post)
    (hpre : ∀ c ∈ pre, ¬ failingRecord c)
    (hw : cs.State.Waiting = some w)
    (hr : w.Reason ∈ ["CrashLoopBackOff", "ImagePullBackOff", "ErrImagePull",
      "CreateContainerConfigError", "InvalidImageName", "RunContainerError"]) :
    detectFailure pod =
      some { PodName := pod.Name, Namespace := pod.Namespace,
             FailureType := mapReasonToFailureType w.Reason,
             ContainerName := cs.Name, Message := w.Message,
             RestartCount := cs.RestartCount } := by
  have hcw := checkWaiting_of_fails pod cs w hw hr
  apply detectFailure_of_scan_some
  rw [hl, List.append_assoc, scan_append_of_not_failing pod pre ([cs] ++ post) hpre]
  simp [scanContainerStatuses, hcw]

/-- Witness of C4 at `mixedPod`: a later OOMKilled record, the pod-level reason
Evicted and the phase Failed do not change the result. -/
theorem detectFailure_first_waiting_wins_witness :
    mixedPod.Status.Reason = "Evicted" ∧ mixedPod.Status.Phase = PodFailed ∧
    failingRecord csOOM ∧
    detectFailure mixedPod = some errImagePullFailure :=
  ⟨rfl, rfl, by decide,
    detectFailure_first_waiting_wins mixedPod [csSidecar] [csOOM] csErrImagePull
      { Reason := "ErrImagePull", Message := "manifest unknown" }
      rfl (by decide) rfl (by decide)⟩

/-- The Terminated state of the first failing record decides the result when
the Waiting state of that record builds nothing. -/
theorem detectFailure_first_terminated (pod : Pod) (pre post : List ContainerStatus)
    (cs : ContainerStatus) (t : ContainerStateTerminated)
    (hl : pod.Status.ContainerStatuses = pre ++ cs :: post)
    (hpre : ∀ c ∈ pre, ¬ failingRecord c)
    (ht : cs.State.Terminated = some t)
    (hnw : ¬ waitingFails cs) :
    (t.Reason = "OOMKilled" →
      detectFailure pod =
        some { PodName := pod.Name, Namespace := pod.Namespace,
               FailureType := FailureOOMKilled,
               ContainerName := cs.Name, Message := t.Message,
               RestartCount := cs.RestartCount }) ∧
    (t.Reason = "Error" →
      detectFailure pod =
        some { PodName := pod.Name, Namespace := pod.Namespace,
               FailureType := FailureError,
               ContainerName := cs.Name, Message := t.Message,
               RestartCount := cs.RestartCount }) ∧
    (t.Reason ≠ "OOMKilled" → t.Reason ≠ "Error" → ¬ failingRecord cs) := by
  have hcw : checkWaiting pod cs = none := (checkWaiting_eq_none_iff pod cs).mpr hnw
  have key : ∀ ft : FailureType, (t.Reason = "OOMKilled" ∨ t.Reason = "Error") →
      mapReasonToFailureType t.Reason = ft →
      detectFailure pod =
        some { PodName := pod.Name, Namespace := pod.Namespace, FailureType := ft,
               ContainerName := cs.Name, Message := t.Message,
               RestartCount := cs.RestartCount } := by
    intro ft hr hmap
    have hct := checkTerminated_of_fails pod cs t ht hr
    rw [hmap] at hct
    apply detectFailure_of_scan_some
    rw [hl, scan_append_of_not_failing pod pre (cs :: post) hpre]
    simp [scanContainerStatuses, hcw, hct]
  refine ⟨fun h => key _ (Or.inl h) (by rw [h]; rfl),
    fun h => key _ (Or.inr h) (by rw [h]; rfl), ?_⟩
  intro h1 h2 hfail
  rcases hfail with hwf | ⟨t2, ht2, hr2⟩
  · exact hnw hwf
  · rw [ht] at ht2
    cases ht2
    rcases hr2 with hr2 | hr2
    · exact h1 hr2
    · exact h2 hr2

/-- C5: when the first failing container status `cs` (no earlier record is
failing) is in Terminated state, its Terminated state set and its Waiting state
not set, then a reason of exactly "OOMKilled" (respectively exactly "Error")
gives the PodFailure with FailureType OOMKilled (respectively Error), the name
and restart count of `cs` and the terminated message; a Terminated record with
any other reason is not a failing record. -/
theorem detectFailure_terminated_first_failing (pod : Pod) (pre post : List ContainerStatus)
    (cs : ContainerStatus) (t : ContainerStateTerminated)
    (hl : pod.Status.ContainerStatuses = pre ++ cs :: post)
    (hpre : ∀ c ∈ pre, ¬ failingRecord c)
    (hstate : cs.State.Waiting = none)
    (ht : cs.State.Terminated = some t) :
    (t.Reason = "OOMKilled" →
      detectFailure pod =
        some { PodName := pod.Name, Namespace := pod.Namespace,
               FailureType := FailureOOMKilled,
               ContainerName := cs.Name, Message := t.Message,
               RestartCount := cs.RestartCount }) ∧
    (t.Reason = "Error" →
      detectFailure pod =
        some { PodName := pod.Name, Namespace := pod.Namespace,
               FailureType := FailureError,
               ContainerName := cs.Name, Message := t.Message,
               RestartCount := cs.RestartCount }) ∧
    (t.Reason ≠ "OOMKilled" → t.Reason ≠ "Error" → ¬ failingRecord cs) := by
  have hnw : ¬ waitingFails cs := by
    rintro ⟨w, hw, _⟩
    rw [hstate] at hw
    cases hw
  exact detectFailure_first_terminated pod pre post cs t hl hpre ht hnw

/-- Witness of C5 at `oomFirstPod`, whose first failing record is `csOOM`, and
at Terminated records with the reasons "Completed", "oomkilled" and
"CrashLoopBackOff", none of which is failing. -/
theorem detectFailure_terminated_first_failing_witness :
    detectFailure oomFirstPod = some oomFailure ∧
    ¬ failingRecord csCompleted ∧
    ¬ failingRecord csTerminatedLowercase ∧
    ¬ failingRecord csTerminatedCrashLoop :=
  ⟨(detectFailure_terminated_first_failing oomFirstPod [csSidecar, csCompleted] [csCrashLoop]
      csOOM { Reason := "OOMKilled", Message := "memory limit exceeded" }
      rfl (by decide) rfl rfl).1 rfl,
   (detectFailure_terminated_first_failing (mkPod [csCompleted] "" "Running") [] []
      csCompleted { Reason := "Completed", Message := "" }
      rfl (by decide) rfl rfl).2.2 (by decide) (by decide),
   (detectFailure_terminated_first_failing (mkPod [csTerminatedLowercase] "" "Running") [] []
      csTerminatedLowercase { Reason := "oomkilled", Message := "" }
      rfl (by decide) rfl rfl).2.2 (by decide) (by decide),
   (detectFailure_terminated_first_failing (mkPod [csTerminatedCrashLoop] "" "Running") [] []
      csTerminatedCrashLoop { Reason := "CrashLoopBackOff", Message := "" }
      rfl (by decide) rfl rfl).2.2 (by decide) (by decide)⟩

/-! ## Pod-level results -/

/-- C6: a pod whose pod-level reason is exactly "Evicted" and which has no
failing container status yields the PodFailure with FailureType Evicted, empty
container name, restart count 0 and the pod-level status message, whatever its
phase is. -/
theorem detectFailure_evicted (pod : Pod)
    (hE : pod.Status.Reason = "Evicted")
    (hnf : ∀ cs ∈ pod.Status.ContainerStatuses, ¬ failingRecord cs) :
    detectFailure pod =
      some { PodName := pod.Name, Namespace := pod.Namespace,
             FailureType := FailureEvicted, ContainerName := "",
             Message := pod.Status.Message, RestartCount := 0 } := by
  have hscan := (scan_eq_none_iff pod pod.Status.ContainerStatuses).mpr hnf
  rw [detectFailure_of_scan_none pod hscan, if_pos hE]

/-- Witness of C6 at `evictedPod`, whose phase is Failed: the result is Evicted
and not Unknown. -/
theorem detectFailure_evicted_witness :
    evictedPod.Status.Phase = PodFailed ∧
    detectFailure evictedPod =
      some { PodName := "shop-7d9c", Namespace := "default", FailureType := "Evicted",
             ContainerName := "", Message := "pod-level message", RestartCount := 0 } ∧
    (detectFailure evictedPod).map PodFailure.FailureType ≠ some FailureUnknown :=
  ⟨rfl, detectFailure_evicted evictedPod rfl (by decide), by decide⟩

/-- C7: a pod with no failing container status, a pod-level reason other than
"Evicted" and phase Failed yields the pod-scoped PodFailure with FailureType
Unknown, empty container name, restart count 0 and the pod-level status
message. -/
theorem detectFailure_phase_failed (pod : Pod)
    (hnf : ∀ cs ∈ pod.Status.ContainerStatuses, ¬ failingRecord cs)
    (hE : pod.Status.Reason ≠ "Evicted")
    (hP : pod.Status.Phase = PodFailed) :
    detectFailure pod =
      some { PodName := pod.Name, Namespace := pod.Namespace,
             FailureType := FailureUnknown, ContainerName := "",
             Message := pod.Status.Message, RestartCount := 0 } := by
  have hscan := (scan_eq_none_iff pod pod.Status.ContainerStatuses).mpr hnf
  rw [detectFailure_of_scan_none pod hscan, if_neg hE, if_pos hP]

/-- Witness of C7 at `failedPod`. -/
theorem detectFailure_phase_failed_witness :
    detectFailure failedPod =
      some { PodName := "shop-7d9c", Namespace := "default", FailureType := "Unknown",
             ContainerName := "", Message := "pod-level message", RestartCount := 0 } :=
  detectFailure_phase_failed failedPod (by decide) (by decide) rfl

/-! ## The reason taxonomy and unmapped reasons -/

/-- C8: `mapReasonToFailureType` is the fixed total table: CrashLoopBackOff to
CrashLoopBackOff; ImagePullBackOff, ErrImagePull and InvalidImageName to
ImagePullBackOff; OOMKilled to OOMKilled; CreateContainerConfigError to
CreateContainerConfigError; RunContainerError to RunContainerError; Evicted to
Evicted; Error to Error; every other string, the empty string and case variants
included, to Unknown. -/
theorem mapReasonToFailureType_table :
    mapReasonToFailureType "CrashLoopBackOff" = FailureCrashLoopBackOff ∧
    mapReasonToFailureType "ImagePullBackOff" = FailureImagePullBackOff ∧
    mapReasonToFailureType "ErrImagePull" = FailureImagePullBackOff ∧
    mapReasonToFailureType "InvalidImageName" = FailureImagePullBackOff ∧
    mapReasonToFailureType "OOMKilled" = FailureOOMKilled ∧
    mapReasonToFailureType "CreateContainerConfigError" = FailureCreateContainerConfigErr ∧
    mapReasonToFailureType "RunContainerError" = FailureRunContainerError ∧
    mapReasonToFailureType "Evicted" = FailureEvicted ∧
    mapReasonToFailureType "Error" = FailureError ∧
    (∀ r : String,
      r ∉ ["CrashLoopBackOff", "ImagePullBackOff", "ErrImagePull", "InvalidImageName",
        "OOMKilled", "CreateContainerConfigError", "RunContainerError", "Evicted", "Error"] →
      mapReasonToFailureType r = FailureUnknown) ∧
    mapReasonToFailureType "" = FailureUnknown ∧
    mapReasonToFailureType "crashloopbackoff" = FailureUnknown ∧
    mapReasonToFailureType "OOMKILLED" = FailureUnknown ∧
    mapReasonToFailureType "evicted" = FailureUnknown :=
  ⟨rfl, rfl, rfl, rfl, rfl, rfl, rfl, rfl, rfl, fun r h => map_of_not_in_table r h,
    rfl, rfl, rfl, rfl⟩

/-- Witness of the default arm of C8 at "SomeFutureReason". -/
theorem mapReasonToFailureType_table_witness :
    mapReasonToFailureType "SomeFutureReason" = FailureUnknown :=
  mapReasonToFailureType_table.2.2.2.2.2.2.2.2.2.1 "SomeFutureReason" (by decide)

/-- C9, as stated, fails at `futureReasonPod` and at `cannotRunPod`: each has a
container status whose Waiting (respectively Terminated) reason has no entry in
the taxonomy's table, no failing record, a pod-level reason other than Evicted
and a phase other than Failed, and `detectFailure` returns no result rather
than a PodFailure of type Unknown. -/
theorem unmapped_reason_counterexample :
    csFutureReason ∈ futureReasonPod.Status.ContainerStatuses ∧
    csFutureReason.State.Waiting =
      some { Reason := "SomeFutureReason", Message := "not yet known" } ∧
    "SomeFutureReason" ∉ taxonomyReasons ∧
    (∀ c ∈ futureReasonPod.Status.ContainerStatuses, ¬ failingRecord c) ∧
    futureReasonPod.Status.Reason ≠ "Evicted" ∧ futureReasonPod.Status.Phase ≠ PodFailed ∧
    detectFailure futureReasonPod = none ∧
    csCannotRun ∈ cannotRunPod.Status.ContainerStatuses ∧
    csCannotRun.State.Terminated =
      some { Reason := "ContainerCannotRun", Message := "exec failed" } ∧
    "ContainerCannotRun" ∉ taxonomyReasons ∧
    (∀ c ∈ cannotRunPod.Status.ContainerStatuses, ¬ failingRecord c) ∧
    cannotRunPod.Status.Reason ≠ "Evicted" ∧ cannotRunPod.Status.Phase ≠ PodFailed ∧
    detectFailure cannotRunPod = none := by
  decide

/-- C9, amended: a container status `cs` that has a Waiting or a Terminated
state, each state it has carrying a reason outside the taxonomy's table, is
dropped by the classifier: when no other record is failing, the pod-level
reason is not Evicted and the phase is not Failed, `detectFailure` returns no
result, although `mapReasonToFailureType` maps each such reason to Unknown. -/
theorem detectFailure_unmapped_reason_none (pod : Pod) (pre post : List ContainerStatus)
    (cs : ContainerStatus)
    (hl : pod.Status.ContainerStatuses = pre ++ cs :: post)
    (_hstate : cs.State.Waiting ≠ none ∨ cs.State.Terminated ≠ none)
    (hwr : ∀ w, cs.State.Waiting = some w → w.Reason ∉ taxonomyReasons)
    (htr : ∀ t, cs.State.Terminated = some t → t.Reason ∉ taxonomyReasons)
    (hother : ∀ c ∈ pre ++ post, ¬ failingRecord c)
    (hE : pod.Status.Reason ≠ "Evicted")
    (hP : pod.Status.Phase ≠ PodFailed) :
    detectFailure pod = none ∧
    (∀ w, cs.State.Waiting = some w → mapReasonToFailureType w.Reason = FailureUnknown) ∧
    (∀ t, cs.State.Terminated = some t → mapReasonToFailureType t.Reason = FailureUnknown) := by
  have hcs : ¬ failingRecord cs := by
    rintro (⟨w, hw, hr⟩ | ⟨t, ht, hr⟩)
    · exact hwr w hw (known_subset_table w.Reason hr)
    · apply htr t ht
      rcases hr with hr | hr <;> rw [hr] <;> decide
  have hscan : scanContainerStatuses pod pod.Status.ContainerStatuses = none := by
    rw [scan_eq_none_iff, hl]
    intro c hc
    rcases List.mem_append.mp hc with hc | hc
    · exact hother c (List.mem_append.mpr (Or.inl hc))
    · rcases List.mem_cons.mp hc with rfl | hc
      · exact hcs
      · exact hother c (List.mem_append.mpr (Or.inr hc))
  refine ⟨?_, fun w hw => map_of_not_in_table _ (hwr w hw),
    fun t ht => map_of_not_in_table _ (htr t ht)⟩
  rw [detectFailure_of_scan_none pod hscan, if_neg hE, if_neg hP]

/-- Witness of the amended C9 at `futureReasonPod`. -/
theorem detectFailure_unmapped_reason_none_witness :
    detectFailure futureReasonPod = none ∧
    mapReasonToFailureType "SomeFutureReason" = FailureUnknown :=
  have h := detectFailure_unmapped_reason_none futureReasonPod [csSidecar] [] csFutureReason
    rfl (by decide) (by decide) (by decide) (by decide) (by decide) (by decide)
  ⟨h.1, h.2.1 { Reason := "SomeFutureReason", Message := "not yet known" } rfl⟩

/-- C10: an unrecognized Waiting reason produces no failure and Unknown is
produced only at pod level: a Waiting state whose reason is outside the known
failure reason set builds no PodFailure; whenever `detectFailure` returns a
PodFailure of type Unknown, the phase is Failed, the pod-level reason is not
"Evicted", no container status is a failing record and the result has empty
container name and restart count 0; and no result of the scan of the container
statuses has type Unknown. -/
theorem unknown_only_at_pod_level :
    (∀ (pod : Pod) (cs : ContainerStatus) (w : ContainerStateWaiting),
      cs.State.Waiting = some w →
      w.Reason ∉ ["CrashLoopBackOff", "ImagePullBackOff", "ErrImagePull",
        "CreateContainerConfigError", "InvalidImageName", "RunContainerError"] →
      checkWaiting pod cs = none) ∧
    (∀ (pod : Pod) (f : PodFailure),
      detectFailure pod = some f → f.FailureType = FailureUnknown →
      pod.Status.Phase = PodFailed ∧ pod.Status.Reason ≠ "Evicted" ∧
      (∀ cs ∈ pod.Status.ContainerStatuses, ¬ failingRecord cs) ∧
      f.ContainerName = "" ∧ f.RestartCount = 0) ∧
    (∀ (pod : Pod) (f : PodFailure),
      scanContainerStatuses pod pod.Status.ContainerStatuses = some f →
      detectFailure pod = some f ∧ f.FailureType ≠ FailureUnknown) := by
  refine ⟨?_, ?_, ?_⟩
  · intro pod cs w hw hr
    rw [checkWaiting_eq_none_iff]
    rintro ⟨w2, hw2, hr2⟩
    rw [hw] at hw2
    cases hw2
    exact hr hr2
  · intro pod f h hU
    cases hscan : scanContainerStatuses pod pod.Status.ContainerStatuses with
    | some g =>
      rw [detectFailure_of_scan_some pod g hscan] at h
      have hg : g = f := Option.some.inj h
      rw [← hg] at hU
      exact absurd hU (scan_type_ne_unknown pod _ g hscan)
    | none =>
      rw [detectFailure_of_scan_none pod hscan] at h
      by_cases hE : pod.Status.Reason = "Evicted"
      · rw [if_pos hE] at h
        have hf : f.FailureType = FailureEvicted := by rw [← Option.some.inj h]
        rw [hf] at hU
        exact absurd hU (by decide)
      · by_cases hP : pod.Status.Phase = PodFailed
        · rw [if_neg hE, if_pos hP] at h
          have hf := Option.some.inj h
          refine ⟨hP, hE, (scan_eq_none_iff pod _).mp hscan, ?_, ?_⟩
          · rw [← hf]
          · rw [← hf]
        · rw [if_neg hE, if_neg hP] at h
          cases h
  · intro pod f hscan
    exact ⟨detectFailure_of_scan_some pod f hscan, scan_type_ne_unknown pod _ f hscan⟩

/-- Witness of C10 at `failedPod`, whose result has type Unknown, and at
`csFutureReason`, whose Waiting reason is unrecognized. -/
theorem unknown_only_at_pod_level_witness :
    checkWaiting futureReasonPod csFutureReason = none ∧
    detectFailure failedPod = some failedPodFailure ∧
    (failedPod.Status.Phase = PodFailed ∧ failedPod.Status.Reason ≠ "Evicted" ∧
      (∀ cs ∈ failedPod.Status.ContainerStatuses, ¬ failingRecord cs) ∧
      failedPodFailure.ContainerName = "" ∧ failedPodFailure.RestartCount = 0) ∧
    (detectFailure crashLoopPod = some crashLoopFailure ∧
      crashLoopFailure.FailureType ≠ FailureUnknown) :=
  ⟨unknown_only_at_pod_level.1 futureReasonPod csFutureReason
      { Reason := "SomeFutureReason", Message := "not yet known" } rfl (by decide),
    by decide,
    unknown_only_at_pod_level.2.1 failedPod failedPodFailure (by decide) rfl,
    unknown_only_at_pod_level.2.2 crashLoopPod crashLoopFailure (by decide)⟩

/-! ## The namespace filter and the reconciliation handler -/

theorem isSystemNamespace_iff (ns : String) :
    isSystemNamespace ns = true ↔
      ns ∈ ["kube-system", "kube-public", "kube-node-lease", "local-path-storage"] := by
  simp [isSystemNamespace, isSystemNamespaceLoop, systemNamespaces]

/-- C11: `isSystemNamespace` is a total predicate that is true exactly for the
names "kube-system", "kube-public", "kube-node-lease" and "local-path-storage";
"default", the empty string and "Kube-System" are not excluded. -/
theorem isSystemNamespace_exact :
    (∀ ns : String, isSystemNamespace ns = true ↔
      (ns = "kube-system" ∨ ns = "kube-public" ∨ ns = "kube-node-lease" ∨
        ns = "local-path-storage")) ∧
    (∀ ns : String, isSystemNamespace ns = false ↔
      (ns ≠ "kube-system" ∧ ns ≠ "kube-public" ∧ ns ≠ "kube-node-lease" ∧
        ns ≠ "local-path-storage")) ∧
    isSystemNamespace "kube-system" = true ∧
    isSystemNamespace "kube-public" = true ∧
    isSystemNamespace "kube-node-lease" = true ∧
    isSystemNamespace "local-path-storage" = true ∧
    isSystemNamespace "default" = false ∧
    isSystemNamespace "" = false ∧
    isSystemNamespace "Kube-System" = false := by
  refine ⟨?_, ?_, by decide, by decide, by decide, by decide, by decide, by decide, by decide⟩
  · intro ns
    rw [isSystemNamespace_iff]
    simp
  · intro ns
    rw [← Bool.not_eq_true, isSystemNamespace_iff]
    simp

/-- Witness of C11 at "kube-public" and at "default". -/
theorem isSystemNamespace_exact_witness :
    isSystemNamespace "kube-public" = true ∧ isSystemNamespace "default" = false :=
  ⟨(isSystemNamespace_exact.1 "kube-public").mpr (Or.inr (Or.inl rfl)),
   (isSystemNamespace_exact.2.1 "default").mpr (by decide)⟩

/-- C12: for a successfully fetched pod whose namespace is a system namespace,
`Reconcile` emits no log entry and returns `ctrl.Result{}` with no error,
whatever the pod's status is. -/
theorem Reconcile_system_namespace_silent (r : Client) (req : Request) (pod : Pod)
    (hget : r req.NamespacedName = Except.ok pod)
    (hsys : pod.Namespace ∈
      ["kube-system", "kube-public", "kube-node-lease", "local-path-storage"]) :
    Reconcile r req = { Logs := [], Result := Result.zero, Err := none } := by
  have h := (isSystemNamespace_iff pod.Namespace).mpr hsys
  simp [Reconcile, hget, h]

/-- Witness of C12 at `systemCrashPod`, a pod of kube-system for which
`detectFailure` returns a PodFailure. -/
theorem Reconcile_system_namespace_silent_witness :
    detectFailure systemCrashPod = some systemCrashFailure ∧
    Reconcile (clientWith systemCrashPod) shopRequest = silentSuccess :=
  ⟨by decide,
   Reconcile_system_namespace_silent (clientWith systemCrashPod) shopRequest systemCrashPod
     rfl (by decide)⟩

/-- C13: with the fetch as an explicit outcome, `Reconcile` returns an error
exactly when the fetch failed with an error other than not-found, and then it
returns that error; a not-found fetch gives `ctrl.Result{}`, no error and no
log entry; on every path the returned result is `ctrl.Result{}`. -/
theorem Reconcile_error_iff_fetch_error (r : Client) (req : Request) :
    ((Reconcile r req).Err ≠ none ↔
      ∃ msg, r req.NamespacedName = Except.error (ClientError.other msg)) ∧
    (∀ msg, r req.NamespacedName = Except.error (ClientError.other msg) →
      (Reconcile r req).Err = some (ClientError.other msg)) ∧
    (∀ msg, r req.NamespacedName = Except.error (ClientError.notFound msg) →
      Reconcile r req = { Logs := [], Result := Result.zero, Err := none }) ∧
    (Reconcile r req).Result = Result.zero := by
  cases hget : r req.NamespacedName with
  | error err =>
    cases err with
    | notFound m => simp [Reconcile, hget, IgnoreNotFound]
    | other m => simp [Reconcile, hget, IgnoreNotFound]
  | ok pod =>
    by_cases hsys : isSystemNamespace pod.Namespace = true
    · simp [Reconcile, hget, hsys]
    · cases hd : detectFailure pod with
      | none => simp [Reconcile, hget, hsys, hd]
      | some f => simp [Reconcile, hget, hsys, hd]

/-- Witness of C13 at a connectivity error and at a not-found fetch. -/
theorem Reconcile_error_iff_fetch_error_witness :
    (Reconcile clientUnavailable shopRequest).Err =
      some (ClientError.other "connection refused") ∧
    Reconcile clientNotFound shopRequest = silentSuccess ∧
    (Reconcile (clientWith crashLoopPod) shopRequest).Err = none :=
  ⟨(Reconcile_error_iff_fetch_error clientUnavailable shopRequest).2.1 "connection refused" rfl,
   (Reconcile_error_iff_fetch_error clientNotFound shopRequest).2.2.1 "pod not found" rfl,
   by decide⟩

/-- C17: for a successfully fetched pod whose namespace is not a system
namespace, `Reconcile` emits no log entry when `detectFailure` returns nil and
exactly one when it returns a PodFailure, whose six fields pod, namespace,
failureType, container, message and restartCount are the fields of that
PodFailure; it returns `ctrl.Result{}` and no error. -/
theorem Reconcile_logs_detected_failure (r : Client) (req : Request) (pod : Pod)
    (hget : r req.NamespacedName = Except.ok pod)
    (hns : pod.Namespace ∉
      ["kube-system", "kube-public", "kube-node-lease", "local-path-storage"]) :
    (detectFailure pod = none → (Reconcile r req).Logs = []) ∧
    (∀ f, detectFailure pod = some f →
      ∃ e, (Reconcile r req).Logs = [e] ∧
        e.KeysAndValues =
          [ ("pod", LogValue.str f.PodName),
            ("namespace", LogValue.str f.Namespace),
            ("failureType", LogValue.str f.FailureType),
            ("container", LogValue.str f.ContainerName),
            ("message", LogValue.str f.Message),
            ("restartCount", LogValue.int f.RestartCount) ]) ∧
    (Reconcile r req).Result = Result.zero ∧ (Reconcile r req).Err = none := by
  have hsys : ¬ isSystemNamespace pod.Namespace = true :=
    fun h => hns ((isSystemNamespace_iff pod.Namespace).mp h)
  cases hd : detectFailure pod with
  | none => simp [Reconcile, hget, hsys, hd]
  | some g => simp [Reconcile, hget, hsys, hd]

/-- Witness of C17 at `crashLoopPod`, one log entry, and at `healthyPod`, none. -/
theorem Reconcile_logs_detected_failure_witness :
    (∃ e, (Reconcile (clientWith crashLoopPod) shopRequest).Logs = [e] ∧
      e.KeysAndValues =
        [ ("pod", LogValue.str "shop-7d9c"),
          ("namespace", LogValue.str "default"),
          ("failureType", LogValue.str "CrashLoopBackOff"),
          ("container", LogValue.str "app"),
          ("message", LogValue.str "back-off 5m0s restarting failed container"),
          ("restartCount", LogValue.int 7) ]) ∧
    (Reconcile (clientWith healthyPod) shopRequest).Logs = [] :=
  ⟨(Reconcile_logs_detected_failure (clientWith crashLoopPod) shopRequest crashLoopPod
      rfl (by decide)).2.1 crashLoopFailure (by decide),
   (Reconcile_logs_detected_failure (clientWith healthyPod) shopRequest healthyPod
      rfl (by decide)).1 (by decide)⟩

/-! ## Frame and range of the classifier -/

theorem checkWaiting_identity (pod : Pod) (cs : ContainerStatus) (f : PodFailure)
    (h : checkWaiting pod cs = some f) :
    f.PodName = pod.Name ∧ f.Namespace = pod.Namespace := by
  unfold checkWaiting at h
  cases hw : cs.State.Waiting with
  | none => simp [hw] at h
  | some w =>
    by_cases hr : isFailureReason w.Reason = true
    · simp [hw, hr] at h
      rw [← h]
      exact ⟨rfl, rfl⟩
    · simp [hw, hr] at h

theorem checkTerminated_identity (pod : Pod) (cs : ContainerStatus) (f : PodFailure)
    (h : checkTerminated pod cs = some f) :
    f.PodName = pod.Name ∧ f.Namespace = pod.Namespace := by
  unfold checkTerminated at h
  cases ht : cs.State.Terminated with
  | none => simp [ht] at h
  | some t =>
    by_cases hr : t.Reason = "OOMKilled" ∨ t.Reason = "Error"
    · simp [ht, hr] at h
      rw [← h]
      exact ⟨rfl, rfl⟩
    · simp [ht, hr] at h

theorem scan_some_cases (pod : Pod) (l : List ContainerStatus) (f : PodFailure)
    (h : scanContainerStatuses pod l = some f) :
    ∃ c ∈ l, checkWaiting pod c = some f ∨ checkTerminated pod c = some f := by
  induction l with
  | nil => simp [scanContainerStatuses] at h
  | cons c l ih =>
    cases hcw : checkWaiting pod c with
    | some g =>
      simp [scanContainerStatuses, hcw] at h
      exact ⟨c, List.mem_cons_self c l, Or.inl (by rw [hcw, h])⟩
    | none =>
      cases hct : checkTerminated pod c with
      | some g =>
        simp [scanContainerStatuses, hcw, hct] at h
        exact ⟨c, List.mem_cons_self c l, Or.inr (by rw [hct, h])⟩
      | none =>
        simp [scanContainerStatuses, hcw, hct] at h
        obtain ⟨d, hd, hor⟩ := ih h
        exact ⟨d, List.mem_cons_of_mem c hd, hor⟩

theorem detectFailure_some_cases (pod : Pod) (f : PodFailure)
    (h : detectFailure pod = some f) :
    scanContainerStatuses pod pod.Status.ContainerStatuses = some f ∨
    (pod.Status.Reason = "Evicted" ∧
      f = { PodName := pod.Name, Namespace := pod.Namespace, FailureType := FailureEvicted,
            ContainerName := "", Message := pod.Status.Message, RestartCount := 0 }) ∨
    (pod.Status.Phase = PodFailed ∧
      f = { PodName := pod.Name, Namespace := pod.Namespace, FailureType := FailureUnknown,
            ContainerName := "", Message := pod.Status.Message, RestartCount := 0 }) := by
  cases hscan : scanContainerStatuses pod pod.Status.ContainerStatuses with
  | some g =>
    rw [detectFailure_of_scan_some pod g hscan] at h
    exact Or.inl h
  | none =>
    rw [detectFailure_of_scan_none pod hscan] at h
    by_cases hE : pod.Status.Reason = "Evicted"
    · rw [if_pos hE] at h
      exact Or.inr (Or.inl ⟨hE, (Option.some.inj h).symm⟩)
    · by_cases hP : pod.Status.Phase = PodFailed
      · rw [if_neg hE, if_pos hP] at h
        exact Or.inr (Or.inr ⟨hP, (Option.some.inj h).symm⟩)
      · rw [if_neg hE, if_neg hP] at h
        cases h

/-- C14: identity is copied from the observation: whenever `detectFailure`
returns a PodFailure, by any of its four branches, its PodName is the pod's
name and its Namespace is the pod's namespace. -/
theorem detectFailure_identity (pod : Pod) (f : PodFailure)
    (h : detectFailure pod = some f) :
    f.PodName = pod.Name ∧ f.Namespace = pod.Namespace := by
  rcases detectFailure_some_cases pod f h with hscan | ⟨_, hf⟩ | ⟨_, hf⟩
  · obtain ⟨c, _, hc | hc⟩ := scan_some_cases pod _ f hscan
    · exact checkWaiting_identity pod c f hc
    · exact checkTerminated_identity pod c f hc
  · rw [hf]
    exact ⟨rfl, rfl⟩
  · rw [hf]
    exact ⟨rfl, rfl⟩

/-- Witness of C14 on each branch: Waiting (`systemCrashPod`), Terminated
(`oomFirstPod`), Evicted (`evictedPod`) and phase Failed (`failedPod`). -/
theorem detectFailure_identity_witness :
    (systemCrashFailure.PodName = "shop-7d9c" ∧ systemCrashFailure.Namespace = "kube-system") ∧
    (oomFailure.PodName = oomFirstPod.Name ∧ oomFailure.Namespace = oomFirstPod.Namespace) ∧
    (evictedPodFailure.PodName = evictedPod.Name ∧
      evictedPodFailure.Namespace = evictedPod.Namespace) ∧
    (failedPodFailure.PodName = failedPod.Name ∧
      failedPodFailure.Namespace = failedPod.Namespace) :=
  ⟨detectFailure_identity systemCrashPod systemCrashFailure (by decide),
   detectFailure_identity oomFirstPod oomFailure (by decide),
   detectFailure_identity evictedPod evictedPodFailure (by decide),
   detectFailure_identity failedPod failedPodFailure (by decide)⟩

theorem checkWaiting_type_mem (pod : Pod) (cs : ContainerStatus) (f : PodFailure)
    (h : checkWaiting pod cs = some f) :
    f.FailureType ∈ [FailureCrashLoopBackOff, FailureImagePullBackOff, FailureOOMKilled,
      FailureCreateContainerConfigErr, FailureRunContainerError, FailureError] := by
  have hall : ∀ x ∈ knownFailureReasons,
      mapReasonToFailureType x ∈ [FailureCrashLoopBackOff, FailureImagePullBackOff,
        FailureOOMKilled, FailureCreateContainerConfigErr, FailureRunContainerError,
        FailureError] := by decide
  unfold checkWaiting at h
  cases hw : cs.State.Waiting with
  | none => simp [hw] at h
  | some w =>
    by_cases hr : isFailureReason w.Reason = true
    · have hm := hall w.Reason ((isFailureReason_iff _).mp hr)
      simp [hw, hr] at h
      rw [← h]
      exact hm
    · simp [hw, hr] at h

theorem checkTerminated_type_mem (pod : Pod) (cs : ContainerStatus) (f : PodFailure)
    (h : checkTerminated pod cs = some f) :
    f.FailureType ∈ [FailureCrashLoopBackOff, FailureImagePullBackOff, FailureOOMKilled,
      FailureCreateContainerConfigErr, FailureRunContainerError, FailureError] := by
  unfold checkTerminated at h
  cases ht : cs.State.Terminated with
  | none => simp [ht] at h
  | some t =>
    by_cases hr : t.Reason = "OOMKilled" ∨ t.Reason = "Error"
    · have hm : mapReasonToFailureType t.Reason ∈ [FailureCrashLoopBackOff,
          FailureImagePullBackOff, FailureOOMKilled, FailureCreateContainerConfigErr,
          FailureRunContainerError, FailureError] := by
        rcases hr with hr | hr <;> rw [hr] <;> decide
      simp [ht, hr] at h
      rw [← h]
      exact hm
    · simp [ht, hr] at h

theorem scan_type_mem (pod : Pod) (l : List ContainerStatus) (f : PodFailure)
    (h : scanContainerStatuses pod l = some f) :
    f.FailureType ∈ [FailureCrashLoopBackOff, FailureImagePullBackOff, FailureOOMKilled,
      FailureCreateContainerConfigErr, FailureRunContainerError, FailureError] := by
  obtain ⟨c, _, hc | hc⟩ := scan_some_cases pod l f h
  · exact checkWaiting_type_mem pod c f hc
  · exact checkTerminated_type_mem pod c f hc

/-- C15: the FailureType of a result lies in the closed enumeration
CrashLoopBackOff, ImagePullBackOff, OOMKilled, CreateContainerConfigError,
RunContainerError, Evicted, Error, Unknown; a result produced from a container
status has one of the types CrashLoopBackOff, ImagePullBackOff, OOMKilled,
CreateContainerConfigError, RunContainerError, Error; and a result has type
Evicted only if the pod-level reason is exactly "Evicted". -/
theorem detectFailure_type_closed (pod : Pod) (f : PodFailure)
    (h : detectFailure pod = some f) :
    f.FailureType ∈ [FailureCrashLoopBackOff, FailureImagePullBackOff, FailureOOMKilled,
      FailureCreateContainerConfigErr, FailureRunContainerError, FailureEvicted,
      FailureError, FailureUnknown] ∧
    (scanContainerStatuses pod pod.Status.ContainerStatuses = some f →
      f.FailureType ∈ [FailureCrashLoopBackOff, FailureImagePullBackOff, FailureOOMKilled,
        FailureCreateContainerConfigErr, FailureRunContainerError, FailureError]) ∧
    (f.FailureType = FailureEvicted → pod.Status.Reason = "Evicted") := by
  have hsub : ∀ x ∈ [FailureCrashLoopBackOff, FailureImagePullBackOff, FailureOOMKilled,
      FailureCreateContainerConfigErr, FailureRunContainerError, FailureError],
      x ∈ [FailureCrashLoopBackOff, FailureImagePullBackOff, FailureOOMKilled,
        FailureCreateContainerConfigErr, FailureRunContainerError, FailureEvicted,
        FailureError, FailureUnknown] ∧ x ≠ FailureEvicted := by decide
  refine ⟨?_, fun hscan => scan_type_mem pod _ f hscan, ?_⟩
  · rcases detectFailure_some_cases pod f h with hscan | ⟨_, hf⟩ | ⟨_, hf⟩
    · exact (hsub _ (scan_type_mem pod _ f hscan)).1
    · have hty : f.FailureType = FailureEvicted := by rw [hf]
      rw [hty]
      decide
    · have hty : f.FailureType = FailureUnknown := by rw [hf]
      rw [hty]
      decide
  · intro hev
    rcases detectFailure_some_cases pod f h with hscan | ⟨hE, _⟩ | ⟨_, hf⟩
    · exact absurd hev (hsub _ (scan_type_mem pod _ f hscan)).2
    · exact hE
    · have hty : f.FailureType = FailureUnknown := by rw [hf]
      rw [hty] at hev
      exact absurd hev (by decide)

/-- Witness of C15 at `mixedPod`, whose pod-level reason is Evicted but whose
result comes from a container status and has type ImagePullBackOff. -/
theorem detectFailure_type_closed_witness :
    errImagePullFailure.FailureType ∈ [FailureCrashLoopBackOff, FailureImagePullBackOff,
      FailureOOMKilled, FailureCreateContainerConfigErr, FailureRunContainerError,
      FailureEvicted, FailureError, FailureUnknown] ∧
    (evictedPodFailure.FailureType = FailureEvicted → evictedPod.Status.Reason = "Evicted") :=
  ⟨(detectFailure_type_closed mixedPod errImagePullFailure (by decide)).1,
   (detectFailure_type_closed evictedPod evictedPodFailure (by decide)).2.2⟩

/-! ## Detection set versus taxonomy, and records with two states set -/

/-- C19: in a container status record with both a Waiting and a Terminated
state set, reached by the scan (no earlier record is failing), the Waiting
state is examined first: with a known failure reason in the Waiting state the
result is built from the Waiting reason and message, whatever the Terminated
reason is; otherwise the Terminated state of the same record is examined and
builds the result when its reason is OOMKilled or Error. -/
theorem detectFailure_both_states_set (pod : Pod) (pre post : List ContainerStatus)
    (cs : ContainerStatus) (w : ContainerStateWaiting) (t : ContainerStateTerminated)
    (hl : pod.Status.ContainerStatuses = pre ++ cs :: post)
    (hpre : ∀ c ∈ pre, ¬ failingRecord c)
    (hw : cs.State.Waiting = some w)
    (ht : cs.State.Terminated = some t) :
    (w.Reason ∈ ["CrashLoopBackOff", "ImagePullBackOff", "ErrImagePull",
        "CreateContainerConfigError", "InvalidImageName", "RunContainerError"] →
      detectFailure pod =
        some { PodName := pod.Name, Namespace := pod.Namespace,
               FailureType := mapReasonToFailureType w.Reason,
               ContainerName := cs.Name, Message := w.Message,
               RestartCount := cs.RestartCount }) ∧
    (w.Reason ∉ ["CrashLoopBackOff", "ImagePullBackOff", "ErrImagePull",
        "CreateContainerConfigError", "InvalidImageName", "RunContainerError"] →
      (t.Reason = "OOMKilled" ∨ t.Reason = "Error") →
      detectFailure pod =
        some { PodName := pod.Name, Namespace := pod.Namespace,
               FailureType := mapReasonToFailureType t.Reason,
               ContainerName := cs.Name, Message := t.Message,
               RestartCount := cs.RestartCount }) := by
  constructor
  · intro hr
    have hcw := checkWaiting_of_fails pod cs w hw hr
    apply detectFailure_of_scan_some
    rw [hl, scan_append_of_not_failing pod pre (cs :: post) hpre]
    simp [scanContainerStatuses, hcw]
  · intro hr htr
    have hnw : ¬ waitingFails cs := by
      rintro ⟨w2, hw2, hr2⟩
      rw [hw] at hw2
      cases hw2
      exact hr hr2
    have hcw : checkWaiting pod cs = none := (checkWaiting_eq_none_iff pod cs).mpr hnw
    have hct := checkTerminated_of_fails pod cs t ht htr
    apply detectFailure_of_scan_some
    rw [hl, scan_append_of_not_failing pod pre (cs :: post) hpre]
    simp [scanContainerStatuses, hcw, hct]

/-- Witness of C19 at `csWaitingAndOOM`, where the Waiting state decides, and
at `csWaitingErrorAndOOM`, where the Terminated state decides. -/
theorem detectFailure_both_states_set_witness :
    detectFailure bothSetPod = some bothSetFailure ∧
    detectFailure waitingErrorPod = some waitingErrorFailure :=
  ⟨(detectFailure_both_states_set bothSetPod [csSidecar] [] csWaitingAndOOM
      { Reason := "CrashLoopBackOff", Message := "back-off" }
      { Reason := "OOMKilled", Message := "oom" }
      rfl (by decide) rfl rfl).1 (by decide),
   (detectFailure_both_states_set waitingErrorPod [csSidecar] [] csWaitingErrorAndOOM
      { Reason := "Error", Message := "exit status 1" }
      { Reason := "OOMKilled", Message := "oom" }
      rfl (by decide) rfl rfl).2 (by decide) (Or.inl rfl)⟩

end KubeCure
